import Mathlib

/-!
Shallow embedding of the AI-Prompt-Fixer backend core:
the Gemini rewrite service (src/unnamed/part_002), the prompt controller
(src/unnamed/part_001), the route validation middleware
(src/backend/routes/promptRoutes.js) and the Mongoose prompt model
(src/backend/models/Prompt.js).  Strings are modelled over `List Char`
(ASCII is all that the fixed literals of the source use); machine clocks
are abstracted into explicit `processingTime` parameters; the external
Gemini API and the document store are modelled as explicit environments.
-/

namespace PromptFixer

/-- ASCII whitespace, the fragment of the JS regex class `\s` exercised by
the source and its fixed literals. -/
def isSpaceChar (c : Char) : Bool :=
  c = ' ' || c = '\t' || c = '\n' || c = '\r' || c = '\x0b' || c = '\x0c'

/-- JS regex word characters `\w` = `[A-Za-z0-9_]`, used by the `\b`
boundaries of `/\bi\b/` and `/\bu\b/` in getMockResponse. -/
def isWordChar (c : Char) : Bool :=
  c.isAlpha || c.isDigit || c = '_'

/-- One pass of the JS `str.replace(/\bX\b/g, rep)` for a single word
character X: the occurrence is replaced when the previous character of the
original string is not a word character and the next one is not either.
The Boolean argument records whether the previously scanned character was a
word character (false at the start of the string). -/
def replaceIsolatedAux (tgt : Char) (rep : List Char) : Bool → List Char → List Char
  | _, [] => []
  | prevW, c :: rest =>
      let nextW := match rest with
        | [] => false
        | d :: _ => isWordChar d
      if c = tgt && !prevW && !nextW then
        rep ++ replaceIsolatedAux tgt rep (isWordChar c) rest
      else
        c :: replaceIsolatedAux tgt rep (isWordChar c) rest

/-- JS `str.replace(/\bX\b/g, rep)` on the character list of the string. -/
def replaceIsolated (tgt : Char) (rep : List Char) (l : List Char) : List Char :=
  replaceIsolatedAux tgt rep false l

/-- Helper for `collapseWs`; the flag records whether the previous character
belonged to a whitespace run that has already emitted its single space. -/
def collapseWsAux : Bool → List Char → List Char
  | _, [] => []
  | prevSp, c :: rest =>
      if isSpaceChar c then
        if prevSp then collapseWsAux true rest
        else ' ' :: collapseWsAux true rest
      else c :: collapseWsAux false rest

/-- JS `str.replace(/\s+/g, ' ')`: every maximal whitespace run becomes a
single space. -/
def collapseWs (l : List Char) : List Char :=
  collapseWsAux false l

/-- JS `String.prototype.trim` on the character list. -/
def trimList (l : List Char) : List Char :=
  ((l.dropWhile isSpaceChar).reverse.dropWhile isSpaceChar).reverse

/-- JS `String.prototype.trim` as used by the controller and the service. -/
def strTrim (s : String) : String :=
  String.mk (trimList s.data)

/-- The test `/[.!?]$/.test(s)` of getMockResponse: the string is non-empty
and its last character is terminal punctuation. -/
def endsInPunctL (l : List Char) : Bool :=
  match l.getLast? with
  | some c => c = '.' || c = '!' || c = '?'
  | none => false

/-- Terminal-punctuation test on a whole string. -/
def endsInPunctS (s : String) : Bool :=
  endsInPunctL s.data

/-- The punctuation step of getMockResponse: append a period unless the
text already ends in `.`, `!` or `?`. -/
def punctStep (l : List Char) : List Char :=
  if endsInPunctL l then l else l ++ ['.']

/-- The basic-improvements chain of GeminiService.getMockResponse
(src/unnamed/part_002, lines 181-192): whole-word i -> I, whole-word
u -> you, whitespace collapsing, trim, then the terminal-punctuation
step of lines 190-192. -/
def baseTransform (originalPrompt : String) : List Char :=
  punctStep (trimList (collapseWs
    (replaceIsolated 'u' ['y', 'o', 'u'] (replaceIsolated 'i' ['I'] originalPrompt.data))))

/-- The tone modifications of getMockResponse (src/unnamed/part_002,
lines 195-201): formal and casual prepend a fixed phrase, friendly wraps
with a greeting and a closing, every other tone leaves the text alone. -/
def applyTone (tone : String) (l : List Char) : List Char :=
  if tone = "formal" then
    ("I would like to formally request assistance with the following: ").data ++ l
  else if tone = "friendly" then
    ("Hi there! ").data ++ l ++ (" Hope this helps!").data
  else if tone = "casual" then
    ("Hey, ").data ++ l
  else l

/-- The type modification of getMockResponse (src/unnamed/part_002, lines
204-206): the email type wraps the text in the fixed email template. -/
def applyTypeWrap (ptype : String) (l : List Char) : List Char :=
  if ptype = "email" then
    ("Subject: Request for Assistance\n\nDear [Recipient],\n\n").data ++ l
      ++ ("\n\nBest regards,\n[Your Name]").data
  else l

/-- The pure text transformation performed inside
GeminiService.getMockResponse (src/unnamed/part_002, lines 181-206):
basic improvements, then tone wrapper, then email template. -/
def mockTransform (originalPrompt tone ptype : String) : String :=
  String.mk (applyTypeWrap ptype (applyTone tone (baseTransform originalPrompt)))

/-- Metadata object attached to a rewrite result by GeminiService.  The
source field `type` is a Lean keyword and is embedded as `ptype`; the mock
path additionally carries a `note` field, absent (none) on the real path. -/
structure RewriteMetadata where
  processingTime : Nat
  model : String
  tone : String
  ptype : String
  originalLength : Nat
  rewrittenLength : Nat
  apiCost : Rat
  note : Option String
deriving Repr, DecidableEq

/-- The object returned by GeminiService.getMockResponse. -/
structure MockResponse where
  success : Bool
  rewrittenPrompt : String
  metadata : RewriteMetadata
deriving Repr, DecidableEq

/-- GeminiService.getMockResponse (src/unnamed/part_002, lines 177-222).
The source computes `processingTime = Date.now() - startTime`; the clock is
abstracted into the explicit `processingTime` parameter. -/
def getMockResponse (originalPrompt tone ptype : String) (processingTime : Nat) :
    MockResponse :=
  let mockRewritten := mockTransform originalPrompt tone ptype
  { success := true
    rewrittenPrompt := mockRewritten
    metadata :=
      { processingTime := processingTime
        model := "mock-gemini"
        tone := tone
        ptype := ptype
        originalLength := originalPrompt.length
        rewrittenLength := mockRewritten.length
        apiCost := 0
        note := some "This is a mock response. Please configure a valid GEMINI_API_KEY for actual AI rewriting." } }

/-- Decides whether the first list is a leading segment of the second;
building block of the substring test used for JS `includes`. -/
def leadsWith : List Char → List Char → Bool
  | [], _ => true
  | _ :: _, [] => false
  | a :: as, b :: bs => a = b && leadsWith as bs

/-- JS `hay.includes(needle)`: the needle occurs contiguously in the hay. -/
def containsSub (needle : List Char) : List Char → Bool
  | [] => leadsWith needle []
  | c :: rest => leadsWith needle (c :: rest) || containsSub needle rest

/-- The error-message classification of the catch block of
GeminiService.rewritePrompt (src/unnamed/part_002, lines 159-166):
substring matching on the raw failure message, in source order, with the
generic message as the default. -/
def classifyError (msg : String) : String :=
  if containsSub ("fetch failed").data msg.data then
    "Network connection failed - check your internet connection"
  else if containsSub ("timeout").data msg.data then
    "Request timed out - please try again"
  else if containsSub ("API key").data msg.data then
    "API key is invalid or expired"
  else "Failed to rewrite prompt"

/-- Floor of a rational, computed from numerator and denominator. -/
def ratFloor (x : Rat) : Int :=
  Int.fdiv x.num x.den

/-- GeminiService.calculateCost (src/unnamed/part_002, lines 224-228):
`(len(original)+len(rewritten))/1000 * 0.0005` rounded to 6 decimal places.
The source computes in IEEE doubles; the embedding uses exact rationals
with round-half-up, which agrees on the magnitudes the service produces. -/
def calculateCost (originalText rewrittenText : String) : Rat :=
  let totalChars : Rat := (originalText.length + rewrittenText.length : Nat)
  let estimatedCost := totalChars / 1000 * (5 / 10000)
  (ratFloor (estimatedCost * 1000000 + 1 / 2) : Rat) / 1000000

/-- Outcome of the raced generation call of GeminiService.rewritePrompt:
the model answers first, the model call rejects first, or the 30 second
timer fires first (the race loser is discarded by the source). -/
inductive GenOutcome
  | ok (text : String)
  | err (msg : String)
  | timedOut
deriving Repr, DecidableEq

/-- Environment of one GeminiService.rewritePrompt call: whether
initializeService left a usable client (`genAI`/`model` non-null), the
outcome of the testConnection probe, and the outcome of the raced
generation call. -/
structure GeminiEnv where
  configured : Bool
  probe : Except String String
  gen : GenOutcome
deriving Repr

/-- The result object of GeminiService.rewritePrompt.  Fields absent from
a given JS return object are `none`; the `fallback` field, when present,
holds a full mock response object. -/
structure RewriteResult where
  success : Bool
  rewrittenPrompt : Option String
  metadata : Option RewriteMetadata
  error : Option String
  details : Option String
  fallback : Option MockResponse
deriving Repr, DecidableEq

/-- The unconfigured branch of rewritePrompt returns the mock response
object itself as the call result. -/
def mockAsResult (m : MockResponse) : RewriteResult :=
  { success := m.success
    rewrittenPrompt := some m.rewrittenPrompt
    metadata := some m.metadata
    error := none
    details := none
    fallback := none }

/-- GeminiService.rewritePrompt (src/unnamed/part_002, lines 84-175).
Wall-clock durations are abstracted into the `processingTime` parameter
(the source computes `Date.now() - startTime` at each return point). -/
def rewritePrompt (env : GeminiEnv) (originalPrompt tone ptype : String)
    (processingTime : Nat) : RewriteResult :=
  if !env.configured then
    mockAsResult (getMockResponse originalPrompt tone ptype processingTime)
  else
    match env.probe with
    | Except.error e =>
        { success := false
          rewrittenPrompt := none
          metadata := none
          error := some "Failed to connect to Gemini API"
          details := some e
          fallback := some (getMockResponse originalPrompt tone ptype processingTime) }
    | Except.ok _ =>
        match env.gen with
        | GenOutcome.ok text =>
            { success := true
              rewrittenPrompt := some (strTrim text)
              metadata := some
                { processingTime := processingTime
                  model := "gemini-1.5-flash"
                  tone := tone
                  ptype := ptype
                  originalLength := originalPrompt.length
                  rewrittenLength := text.length
                  apiCost := calculateCost originalPrompt text
                  note := none }
              error := none
              details := none
              fallback := none }
        | GenOutcome.err m =>
            { success := false
              rewrittenPrompt := none
              metadata := none
              error := some (classifyError m)
              details := some m
              fallback := some (getMockResponse originalPrompt tone ptype processingTime) }
        | GenOutcome.timedOut =>
            { success := false
              rewrittenPrompt := none
              metadata := none
              error := some (classifyError "Request timeout after 30 seconds")
              details := some "Request timeout after 30 seconds"
              fallback := some (getMockResponse originalPrompt tone ptype processingTime) }

/-- Outcome of PromptController.rewritePrompt as observed by a caller,
instrumented with a spy flag recording whether geminiService.rewritePrompt
was invoked. -/
structure OrchestratorOutcome where
  status : Nat
  error : Option String
  aiInvoked : Bool
  result : Option RewriteResult
deriving Repr, DecidableEq

/-- The validation and service-call portion of
PromptController.rewritePrompt (src/unnamed/part_001, lines 7-49).  The
route middleware validateRewriteRequest additionally rejects non-string
prompts, which the typed embedding cannot represent; for string prompts
its prompt check (falsy test) is subsumed by the trimmed-empty test here.
The auto-save step is modelled separately by `saveRecord`. -/
def handleRewrite (env : GeminiEnv) (prompt tone ptype : String)
    (processingTime : Nat) : OrchestratorOutcome :=
  if (strTrim prompt).length = 0 then
    { status := 400, error := some "Prompt is required", aiInvoked := false, result := none }
  else if 5000 < prompt.length then
    { status := 400, error := some "Prompt too long", aiInvoked := false, result := none }
  else
    let r := rewritePrompt env (strTrim prompt) tone ptype processingTime
    if r.success then
      { status := 200, error := none, aiInvoked := true, result := some r }
    else
      { status := 500, error := some "AI service error", aiInvoked := true, result := some r }

/-- JS `str.split(' ')` (split on the single space character, keeping empty
segments, with `""` splitting to one empty segment), as used by the
pre-save hook of the prompt schema. -/
def splitSpace : List Char → List (List Char)
  | [] => [[]]
  | c :: rest =>
      if c = ' ' then [] :: splitSpace rest
      else
        match splitSpace rest with
        | [] => [[c]]
        | w :: ws => (c :: w) :: ws

/-- Word count as the wording of the spec describes it, for refinement
comparison only: the number of maximal runs of non-whitespace characters
(whitespace-separated words). -/
def countWordsAux : Bool → List Char → Nat
  | _, [] => 0
  | inWord, c :: rest =>
      if isSpaceChar c then countWordsAux false rest
      else (if inWord then 0 else 1) + countWordsAux true rest

/-- Whitespace-separated word count of a string, per the wording of the
spec (refinement-side definition, not taken from the source). -/
def specWordCount (s : String) : Nat :=
  countWordsAux false s.data

/-- The `metadata.wordCount` subdocument of the prompt schema. -/
structure WordCount where
  original : Nat
  rewritten : Nat
deriving Repr, DecidableEq

/-- The `metadata` subdocument of the prompt schema
(src/backend/models/Prompt.js, lines 45-53). -/
structure PromptMetadata where
  wordCount : WordCount
  processingTime : Option Nat
  model : String
  apiCost : Rat
deriving Repr, DecidableEq

/-- A document of the prompt collection (src/backend/models/Prompt.js).
The source field `type` is a Lean keyword and is embedded as `ptype`;
`id` stands for the Mongo `_id` and `timestamp` for the schema timestamp
field (a clock value, modelled as a Nat). -/
structure PromptRecord where
  id : Nat
  userId : String
  originalPrompt : String
  rewrittenPrompt : String
  tone : String
  ptype : String
  isFavorite : Bool
  timestamp : Nat
  metadata : PromptMetadata
deriving Repr, DecidableEq

/-- Schema string setters: `trim: true` on userId, originalPrompt and
rewrittenPrompt (src/backend/models/Prompt.js, lines 4-21). -/
def applySchemaTrims (r : PromptRecord) : PromptRecord :=
  { r with
    userId := strTrim r.userId
    originalPrompt := strTrim r.originalPrompt
    rewrittenPrompt := strTrim r.rewrittenPrompt }

/-- The pre-save middleware of the prompt schema
(src/backend/models/Prompt.js, lines 73-79): when both prompts are truthy
(non-empty), the word counts are recomputed by splitting each prompt on
the single space character. -/
def preSave (r : PromptRecord) : PromptRecord :=
  if r.originalPrompt ≠ "" && r.rewrittenPrompt ≠ "" then
    { r with metadata :=
        { r.metadata with wordCount :=
            { original := (splitSpace r.originalPrompt.data).length
              rewritten := (splitSpace r.rewrittenPrompt.data).length } } }
  else r

/-- One document save: schema setters, then the pre-save middleware. -/
def saveRecord (r : PromptRecord) : PromptRecord :=
  preSave (applySchemaTrims r)

/-- Replaces the caller-supplied word counts of a record, to state that
persistence ignores them. -/
def withWordCount (r : PromptRecord) (wc : WordCount) : PromptRecord :=
  { r with metadata := { r.metadata with wordCount := wc } }

/-- Model of the `$regex` matcher of the document store (an external
collaborator), restricted to the pattern fragment of literal characters
and the `.` wildcard; the `i` option folds ASCII case.  Decides whether
the pattern matches starting at the head of the text. -/
def reMatchAt : List Char → List Char → Bool
  | [], _ => true
  | _ :: _, [] => false
  | p :: ps, c :: cs => (p = '.' || p.toLower = c.toLower) && reMatchAt ps cs

/-- Unanchored case-insensitive regex search, the semantics of
`{ $regex: search, $options: 'i' }` for the modelled pattern fragment. -/
def reSearch (pat : List Char) : List Char → Bool
  | [] => reMatchAt pat []
  | c :: rest => reMatchAt pat (c :: rest) || reSearch pat rest

/-- Literal case-insensitive prefix test (refinement-side definition,
following the wording of the spec, not the source). -/
def litMatchAt : List Char → List Char → Bool
  | [], _ => true
  | _ :: _, [] => false
  | p :: ps, c :: cs => (p.toLower = c.toLower) && litMatchAt ps cs

/-- Literal case-insensitive substring search, the matching the spec
wording describes for free-text search (refinement-side definition). -/
def litSearch (needle : List Char) : List Char → Bool
  | [] => litMatchAt needle []
  | c :: rest => litMatchAt needle (c :: rest) || litSearch needle rest

/-- The query object built by PromptController.getHistory
(src/unnamed/part_001, lines 122-132): userId always, type and tone when
supplied, and a `$or` of two case-insensitive regex conditions when a
search text is supplied.  Empty-string filters, falsy in JS, are `none`. -/
structure HistoryQuery where
  userId : String
  ptype : Option String
  tone : Option String
  search : Option String
deriving Repr, DecidableEq

/-- Builds the getHistory query object from the request parameters. -/
def buildHistoryQuery (userId : String) (ptype tone search : Option String) :
    HistoryQuery :=
  { userId := userId, ptype := ptype, tone := tone, search := search }

/-- Whether a stored document matches the getHistory query object, with
`$regex` interpreted by `reSearch`. -/
def matchesHistoryQuery (q : HistoryQuery) (r : PromptRecord) : Bool :=
  r.userId = q.userId
  && (match q.ptype with | none => true | some t => r.ptype = t)
  && (match q.tone with | none => true | some t => r.tone = t)
  && (match q.search with
      | none => true
      | some s =>
          reSearch s.data r.originalPrompt.data || reSearch s.data r.rewrittenPrompt.data)

/-- Insertion into a list kept in descending timestamp order. -/
def insertDesc (r : PromptRecord) : List PromptRecord → List PromptRecord
  | [] => [r]
  | x :: xs => if x.timestamp ≤ r.timestamp then r :: x :: xs else x :: insertDesc r xs

/-- The `sort({ timestamp: -1 })` of the controller queries, at the default
`sortBy`/`sortOrder` of the source (an order-only concern: the claims
below never depend on the order of the returned slice). -/
def sortTimestampDesc (l : List PromptRecord) : List PromptRecord :=
  l.foldr insertDesc []

/-- The pagination object assembled by getHistory and getFavorites. -/
structure Pagination where
  currentPage : Nat
  totalPages : Nat
  totalItems : Nat
  itemsPerPage : Nat
  hasNext : Bool
  hasPrev : Bool
deriving Repr, DecidableEq

/-- The data payload of a getHistory or getFavorites response. -/
structure HistoryResponse where
  prompts : List PromptRecord
  pagination : Pagination
deriving Repr, DecidableEq

/-- Shared query execution of getHistory and getFavorites
(src/unnamed/part_001, lines 134-161 and 244-271): filter, sort, skip
`(page-1)*limit`, take `limit`, and assemble pagination from the total
matching count.  `totalPages` embeds `Math.ceil(total/limit)` for a
positive limit. -/
def runPagedQuery (matching : List PromptRecord) (page limit : Nat) :
    HistoryResponse :=
  let sorted := sortTimestampDesc matching
  let skip := (page - 1) * limit
  let prompts := (sorted.drop skip).take limit
  { prompts := prompts
    pagination :=
      { currentPage := page
        totalPages := (matching.length + limit - 1) / limit
        totalItems := matching.length
        itemsPerPage := limit
        hasNext := decide (skip + prompts.length < matching.length)
        hasPrev := decide (1 < page) } }

/-- PromptController.getHistory (src/unnamed/part_001, lines 117-168) over
an explicit store, at the default sort. -/
def getHistory (store : List PromptRecord) (userId : String) (page limit : Nat)
    (ptype tone search : Option String) : HistoryResponse :=
  runPagedQuery
    (store.filter (matchesHistoryQuery (buildHistoryQuery userId ptype tone search)))
    page limit

/-- PromptController.getFavorites (src/unnamed/part_001, lines 237-278)
over an explicit store: the same paged query with the implicit
`isFavorite: true` filter. -/
def getFavorites (store : List PromptRecord) (userId : String) (page limit : Nat) :
    HistoryResponse :=
  runPagedQuery (store.filter (fun r => r.userId = userId && r.isFavorite)) page limit

/-- The deletion filter of PromptController.deleteHistoryItem
(src/unnamed/part_001, lines 176-177): `_id` always, `userId` only when
supplied. -/
def matchesDelete (id : Nat) (owner : Option String) (r : PromptRecord) : Bool :=
  r.id = id && (match owner with | none => true | some u => r.userId = u)

/-- Model of `Prompt.findOneAndDelete(query)`: removes the first matching
document and returns it, or returns `none` leaving the store unchanged. -/
def findOneAndDelete (id : Nat) (owner : Option String) :
    List PromptRecord → Option PromptRecord × List PromptRecord
  | [] => (none, [])
  | r :: rest =>
      if matchesDelete id owner r then (some r, rest)
      else
        let p := findOneAndDelete id owner rest
        (p.1, r :: p.2)

/-- PromptController.deleteHistoryItem (src/unnamed/part_001, lines
171-198) over an explicit store: 404 when nothing matched, 200 and the
store without the document otherwise. -/
def deleteHistoryItem (store : List PromptRecord) (id : Nat)
    (owner : Option String) : Nat × List PromptRecord :=
  match findOneAndDelete id owner store with
  | (none, s) => (404, s)
  | (some _, s) => (200, s)

/-- A prompt of 5001 characters whose trimmed value is the single
character a: raw length exceeds 5000 while the trimmed length is 1. -/
def longPrompt : String :=
  String.mk ('a' :: List.replicate 5000 ' ')

/-- A Gemini environment in which the client was never configured. -/
def envUnconfigured : GeminiEnv :=
  { configured := false, probe := Except.ok "", gen := GenOutcome.ok "" }

/-- A stored document whose original prompt contains two consecutive
spaces, for the word-count claim. -/
def c6Record : PromptRecord :=
  { id := 1
    userId := "u"
    originalPrompt := "a  b"
    rewrittenPrompt := "x y"
    tone := "professional"
    ptype := "other"
    isFavorite := false
    timestamp := 0
    metadata :=
      { wordCount := { original := 0, rewritten := 0 }
        processingTime := none
        model := "gemini-pro"
        apiCost := 0 } }

/-- A stored document whose prompts do not contain the literal text
`a.c`, for the search claim. -/
def c7Record : PromptRecord :=
  { id := 2
    userId := "u"
    originalPrompt := "abc"
    rewrittenPrompt := "xyz"
    tone := "professional"
    ptype := "other"
    isFavorite := false
    timestamp := 0
    metadata :=
      { wordCount := { original := 1, rewritten := 1 }
        processingTime := none
        model := "gemini-pro"
        apiCost := 0 } }

/-- A stored document owned by user u, for the owner-scoped deletion
claim. -/
def c8Record : PromptRecord :=
  { id := 3
    userId := "u"
    originalPrompt := "keep me"
    rewrittenPrompt := "Keep me."
    tone := "professional"
    ptype := "other"
    isFavorite := true
    timestamp := 5
    metadata :=
      { wordCount := { original := 2, rewritten := 2 }
        processingTime := some 10
        model := "mock-gemini"
        apiCost := 0 } }

/-! Helper lemmas shared by the claim theorems. -/

/-- Dropping leading whitespace skips over a run of spaces. -/
theorem dropWhile_space_replicate (n : Nat) (l : List Char) :
    (List.replicate n ' ' ++ l).dropWhile isSpaceChar = l.dropWhile isSpaceChar := by
  induction n with
  | zero => simp
  | succ n ih =>
      have hsp : isSpaceChar ' ' = true := by decide
      simp [List.replicate_succ, hsp, ih]

/-- The 5001-character prompt trims to the single character a. -/
theorem strTrim_longPrompt : strTrim longPrompt = "a" := by
  have ha : ¬ (isSpaceChar 'a' = true) := by decide
  unfold strTrim longPrompt trimList
  rw [List.dropWhile_cons, if_neg ha, List.reverse_cons, List.reverse_replicate,
    dropWhile_space_replicate, List.dropWhile_cons, if_neg ha]
  rfl

/-- The raw length of the 5001-character prompt. -/
theorem longPrompt_length : longPrompt.length = 5001 := by
  show ('a' :: List.replicate 5000 ' ').length = 5001
  rw [List.length_cons, List.length_replicate]

/-- A list ending in terminal punctuation is non-empty. -/
theorem endsInPunctL_ne_nil {l : List Char} (h : endsInPunctL l = true) : l ≠ [] := by
  intro hnil
  subst hnil
  simp [endsInPunctL] at h

/-- Prepending text preserves an ending in terminal punctuation. -/
theorem endsInPunctL_append (l r : List Char) (h : endsInPunctL r = true) :
    endsInPunctL (l ++ r) = true := by
  unfold endsInPunctL at h ⊢
  rw [List.getLast?_append]
  cases hr : r.getLast? with
  | none => rw [hr] at h; simp at h
  | some c => rw [hr] at h; simpa using h

/-- The punctuation step always yields text ending in `.`, `!` or `?`. -/
theorem endsInPunctL_punctStep (l : List Char) : endsInPunctL (punctStep l) = true := by
  unfold punctStep
  split
  · assumption
  · unfold endsInPunctL
    rw [List.getLast?_concat]
    decide

/-- The punctuation step never yields the empty text. -/
theorem punctStep_ne_nil (l : List Char) : punctStep l ≠ [] :=
  endsInPunctL_ne_nil (endsInPunctL_punctStep l)

/-- Every tone wrapper preserves an ending in terminal punctuation. -/
theorem applyTone_endsInPunct (tone : String) (l : List Char)
    (h : endsInPunctL l = true) : endsInPunctL (applyTone tone l) = true := by
  unfold applyTone
  split
  · exact endsInPunctL_append _ _ h
  · split
    · exact endsInPunctL_append _ _ (by decide)
    · split
      · exact endsInPunctL_append _ _ h
      · exact h

/-- Every tone wrapper preserves non-emptiness. -/
theorem applyTone_ne_nil (tone : String) (l : List Char) (h : l ≠ []) :
    applyTone tone l ≠ [] := by
  unfold applyTone
  split
  · simp
  · split
    · simp
    · split
      · simp
      · exact h

/-- The type wrapper preserves non-emptiness. -/
theorem applyTypeWrap_ne_nil (ptype : String) (l : List Char) (h : l ≠ []) :
    applyTypeWrap ptype l ≠ [] := by
  unfold applyTypeWrap
  split
  · simp
  · exact h

/-- When no document matches the deletion filter, findOneAndDelete
returns nothing and leaves the store unchanged. -/
theorem findOneAndDelete_eq_none (id : Nat) (owner : Option String)
    (store : List PromptRecord)
    (h : ∀ r ∈ store, matchesDelete id owner r = false) :
    findOneAndDelete id owner store = (none, store) := by
  induction store with
  | nil => rfl
  | cons a rest ih =>
      have ha : matchesDelete id owner a = false := h a (by simp)
      unfold findOneAndDelete
      rw [ha]
      simp only [Bool.false_eq_true, if_false]
      rw [ih (fun r hr => h r (by simp [hr]))]

/-! Claim theorems. -/

/-- C1 counterexample: the prompt of raw length 5001 whose trim is the
non-empty single character a of length 1 (well within 5000) is rejected
with 400 and the AI client is not invoked, although the claim says every
prompt that is non-empty and at most 5000 characters after trimming
passes validation. -/
theorem c1_counterexample :
    handleRewrite envUnconfigured longPrompt "professional" "other" 0
      = { status := 400, error := some "Prompt too long", aiInvoked := false, result := none }
    ∧ strTrim longPrompt = "a"
    ∧ (strTrim longPrompt).length = 1
    ∧ (strTrim longPrompt).length ≤ 5000 := by
  refine ⟨?_, strTrim_longPrompt, ?_, ?_⟩
  · unfold handleRewrite envUnconfigured
    rw [strTrim_longPrompt, longPrompt_length]
    decide
  · rw [strTrim_longPrompt]; rfl
  · rw [strTrim_longPrompt]; decide

/-- C1 amended: the orchestrator rejects with 400 exactly when the
trimmed prompt is empty or the raw (untrimmed) prompt length exceeds 5000
characters, and the AI client is invoked exactly when neither holds; in
particular no such rejection invokes the client, and every prompt whose
raw length is at most 5000 and whose trim is non-empty passes
validation. -/
theorem c1_amended (env : GeminiEnv) (p tone ty : String) (t : Nat) :
    ((handleRewrite env p tone ty t).status = 400
      ↔ ((strTrim p).length = 0 ∨ 5000 < p.length))
    ∧ (handleRewrite env p tone ty t).aiInvoked
        = !(decide ((strTrim p).length = 0 ∨ 5000 < p.length)) := by
  unfold handleRewrite
  by_cases h1 : (strTrim p).length = 0
  · simp [h1]
  · by_cases h2 : 5000 < p.length
    · simp [h1, h2]
    · simp only [h1, h2, if_false, or_self, decide_eq_true_eq]
      split <;> simp [h1, h2]

/-- C1 witness: a plain short prompt passes validation and the client is
invoked; the rejection condition is decidably false there. -/
theorem c1_witness :
    ((handleRewrite envUnconfigured "hi" "professional" "other" 0).status = 400
      ↔ ((strTrim "hi").length = 0 ∨ 5000 < ("hi" : String).length))
    ∧ (handleRewrite envUnconfigured "hi" "professional" "other" 0).aiInvoked
        = !(decide ((strTrim "hi").length = 0 ∨ 5000 < ("hi" : String).length)) :=
  c1_amended envUnconfigured "hi" "professional" "other" 0

/-- C2 counterexample: when the connectivity probe fails with the raw
message connect timeout, the returned error message is the fixed string
Failed to connect to Gemini API, which is not the message that substring
classification of the failure message produces (and is none of the four
class messages at all). -/
theorem c2_counterexample :
    (rewritePrompt ⟨true, Except.error "connect timeout", GenOutcome.ok ""⟩
        "hi" "professional" "other" 0).success = false
    ∧ (rewritePrompt ⟨true, Except.error "connect timeout", GenOutcome.ok ""⟩
        "hi" "professional" "other" 0).details = some "connect timeout"
    ∧ (rewritePrompt ⟨true, Except.error "connect timeout", GenOutcome.ok ""⟩
        "hi" "professional" "other" 0).error = some "Failed to connect to Gemini API"
    ∧ classifyError "connect timeout" = "Request timed out - please try again"
    ∧ ("Failed to connect to Gemini API" : String) ≠ classifyError "connect timeout"
    ∧ ("Failed to connect to Gemini API" : String)
        ≠ "Network connection failed - check your internet connection"
    ∧ ("Failed to connect to Gemini API" : String) ≠ "Request timed out - please try again"
    ∧ ("Failed to connect to Gemini API" : String) ≠ "API key is invalid or expired"
    ∧ ("Failed to connect to Gemini API" : String) ≠ "Failed to rewrite prompt" := by
  decide

/-- C2 amended: whenever rewrite fails, the result carries the raw
failure detail and a fallback equal to the Text Transform Fallback output
for the same prompt, tone and type; the human-readable message is chosen
by substring classification of the raw detail on the failure paths of the
rewrite call itself (network, timeout, auth, unknown), while a
connectivity-probe failure yields the fixed message Failed to connect to
Gemini API. -/
theorem c2_amended (env : GeminiEnv) (p tone ty : String) (t : Nat)
    (hfail : (rewritePrompt env p tone ty t).success = false) :
    (rewritePrompt env p tone ty t).fallback = some (getMockResponse p tone ty t)
    ∧ ∃ d, (rewritePrompt env p tone ty t).details = some d
        ∧ ((env.probe = Except.error d
              ∧ (rewritePrompt env p tone ty t).error = some "Failed to connect to Gemini API")
           ∨ (rewritePrompt env p tone ty t).error = some (classifyError d)) := by
  obtain ⟨conf, probe, gen⟩ := env
  cases conf with
  | false => simp [rewritePrompt, mockAsResult, getMockResponse] at hfail
  | true =>
      cases probe with
      | error e => exact ⟨rfl, e, rfl, Or.inl ⟨rfl, rfl⟩⟩
      | ok s =>
          cases gen with
          | ok text => simp [rewritePrompt] at hfail
          | err m => exact ⟨rfl, m, rfl, Or.inr rfl⟩
          | timedOut => exact ⟨rfl, "Request timeout after 30 seconds", rfl, Or.inr rfl⟩

/-- C2 witness: a concrete failed generation call carries its raw detail,
a populated fallback, and the substring-classified message. -/
theorem c2_witness :
    (rewritePrompt ⟨true, Except.ok "", GenOutcome.err "boom"⟩ "hi u" "casual" "other" 3).fallback
        = some (getMockResponse "hi u" "casual" "other" 3)
    ∧ ∃ d, (rewritePrompt ⟨true, Except.ok "", GenOutcome.err "boom"⟩
          "hi u" "casual" "other" 3).details = some d
        ∧ (((⟨true, Except.ok "", GenOutcome.err "boom"⟩ : GeminiEnv).probe = Except.error d
              ∧ (rewritePrompt ⟨true, Except.ok "", GenOutcome.err "boom"⟩
                  "hi u" "casual" "other" 3).error = some "Failed to connect to Gemini API")
           ∨ (rewritePrompt ⟨true, Except.ok "", GenOutcome.err "boom"⟩
                "hi u" "casual" "other" 3).error = some (classifyError d)) :=
  c2_amended ⟨true, Except.ok "", GenOutcome.err "boom"⟩ "hi u" "casual" "other" 3 (by decide)

/-- C3 counterexample: on the prompt hello-with-three-spaces-world at the
default tone and type with the AI client unconfigured, the fallback output
is hello world. with a lowercase h, not Hello world. as the claim
states (the transform has no first-letter capitalization step). -/
theorem c3_counterexample :
    (getMockResponse "hello   world" "professional" "other" 0).rewrittenPrompt
      ≠ "Hello world."
    ∧ (getMockResponse "hello   world" "professional" "other" 0).rewrittenPrompt
      = "hello world." := by
  decide

/-- C3 amended: for the prompt hello-with-three-spaces-world, tone
resolved to the default professional (no wrapper) and type other, with the
AI client unconfigured, the rewrite returns exactly hello world.
(whitespace collapsed, terminal punctuation appended, no
capitalization). -/
theorem c3_amended (pr : Except String String) (g : GenOutcome) (t : Nat) :
    (rewritePrompt ⟨false, pr, g⟩ "hello   world" "professional" "other" t).rewrittenPrompt
      = some "hello world." :=
  rfl

/-- C4 counterexample: for the email type the fallback output ends in the
closing bracket of the signature placeholder, not in terminal
punctuation. -/
theorem c4_counterexample :
    endsInPunctS (getMockResponse "hi" "professional" "email" 0).rewrittenPrompt = false
    ∧ (getMockResponse "hi" "professional" "email" 0).rewrittenPrompt.data.getLast?
        = some ']' := by
  decide

/-- C4 amended: for every input text and tone, and every type other than
email, the Text Transform Fallback output ends in one of the terminal
punctuation characters `.`, `!` or `?`. -/
theorem c4_amended (p tone ty : String) (t : Nat) (h : ty ≠ "email") :
    endsInPunctS (getMockResponse p tone ty t).rewrittenPrompt = true := by
  show endsInPunctL (applyTypeWrap ty (applyTone tone (baseTransform p))) = true
  unfold applyTypeWrap
  rw [if_neg h]
  exact applyTone_endsInPunct _ _ (endsInPunctL_punctStep _)

/-- C4 witness: a concrete non-email call ends in terminal punctuation. -/
theorem c4_witness :
    endsInPunctS (getMockResponse "hello" "formal" "message" 7).rewrittenPrompt = true :=
  c4_amended "hello" "formal" "message" 7 (by decide)

/-- C5 counterexample: the mock result of the unconfigured client carries
model mock-gemini, not mock as the claim states. -/
theorem c5_counterexample :
    (rewritePrompt envUnconfigured "hi" "professional" "other" 0).metadata.map
        RewriteMetadata.model = some "mock-gemini"
    ∧ ("mock-gemini" : String) ≠ "mock" := by
  decide

/-- C5 amended: for every prompt, tone and type, when the client was
never configured the rewrite immediately returns the Text Transform
Fallback output as a successful result whose metadata has model
mock-gemini and apiCost 0, and the result does not depend on the probe or
generation outcomes (no external call is observed). -/
theorem c5_amended (pr pr2 : Except String String) (g g2 : GenOutcome)
    (p tone ty : String) (t : Nat) :
    (rewritePrompt ⟨false, pr, g⟩ p tone ty t).success = true
    ∧ (rewritePrompt ⟨false, pr, g⟩ p tone ty t).rewrittenPrompt
        = some (getMockResponse p tone ty t).rewrittenPrompt
    ∧ (rewritePrompt ⟨false, pr, g⟩ p tone ty t).metadata
        = some (getMockResponse p tone ty t).metadata
    ∧ (getMockResponse p tone ty t).metadata.model = "mock-gemini"
    ∧ (getMockResponse p tone ty t).metadata.apiCost = 0
    ∧ rewritePrompt ⟨false, pr, g⟩ p tone ty t = rewritePrompt ⟨false, pr2, g2⟩ p tone ty t :=
  ⟨rfl, rfl, rfl, rfl, rfl, rfl⟩

/-- C6 counterexample: a record whose original prompt is a-two-spaces-b
is persisted with wordCount.original 3 (split on the single space
character keeps the empty middle segment), while the number of
whitespace-separated words of the stored prompt is 2. -/
theorem c6_counterexample :
    (saveRecord c6Record).metadata.wordCount.original = 3
    ∧ specWordCount (saveRecord c6Record).originalPrompt = 2
    ∧ (saveRecord c6Record).metadata.wordCount.original
        ≠ specWordCount (saveRecord c6Record).originalPrompt := by
  decide

/-- C6 amended: for every persisted record with non-empty stored prompts,
the stored word counts equal the number of segments obtained by splitting
the stored originalPrompt and rewrittenPrompt on the single space
character (the JS split on a space), recomputed at persistence time
regardless of any word counts supplied by the caller. -/
theorem c6_amended (r : PromptRecord) (wc : WordCount)
    (h1 : strTrim r.originalPrompt ≠ "") (h2 : strTrim r.rewrittenPrompt ≠ "") :
    (saveRecord r).metadata.wordCount.original
        = (splitSpace (saveRecord r).originalPrompt.data).length
    ∧ (saveRecord r).metadata.wordCount.rewritten
        = (splitSpace (saveRecord r).rewrittenPrompt.data).length
    ∧ saveRecord (withWordCount r wc) = saveRecord r := by
  unfold saveRecord preSave applySchemaTrims withWordCount
  simp [h1, h2]

/-- C6 witness: the sample record with caller-supplied counts 9 and 9 is
stored with the recomputed counts. -/
theorem c6_witness :
    (saveRecord c6Record).metadata.wordCount.original
        = (splitSpace (saveRecord c6Record).originalPrompt.data).length
    ∧ (saveRecord c6Record).metadata.wordCount.rewritten
        = (splitSpace (saveRecord c6Record).rewrittenPrompt.data).length
    ∧ saveRecord (withWordCount c6Record { original := 9, rewritten := 9 })
        = saveRecord c6Record :=
  c6_amended c6Record { original := 9, rewritten := 9 } (by decide) (by decide)

/-- C7 counterexample: searching for a.c returns the record whose prompts
are abc and xyz, although a.c is not a case-insensitive literal substring
of either field: the search text is interpreted as a regular expression,
not literally. -/
theorem c7_counterexample :
    (getHistory [c7Record] "u" 1 20 none none (some "a.c")).prompts = [c7Record]
    ∧ litSearch ("a.c").data c7Record.originalPrompt.data = false
    ∧ litSearch ("a.c").data c7Record.rewrittenPrompt.data = false := by
  decide

/-- C7 amended: for every user, store and search text, the records
matched by the history list operation are exactly the stored records of
that user on which the search text, interpreted as a case-insensitive
regular expression, matches the originalPrompt or the rewrittenPrompt
(stated over the modelled pattern fragment of literals and the dot
wildcard). -/
theorem c7_amended (store : List PromptRecord) (u se : String) (r : PromptRecord) :
    r ∈ store.filter (matchesHistoryQuery (buildHistoryQuery u none none (some se)))
    ↔ r ∈ store ∧ r.userId = u
        ∧ (reSearch se.data r.originalPrompt.data = true
           ∨ reSearch se.data r.rewrittenPrompt.data = true) := by
  simp [List.mem_filter, matchesHistoryQuery, buildHistoryQuery]

/-- C7 witness: the sample record is matched by the regex search a.c. -/
theorem c7_witness :
    c7Record ∈ List.filter
        (matchesHistoryQuery (buildHistoryQuery "u" none none (some "a.c"))) [c7Record]
    ↔ c7Record ∈ [c7Record] ∧ c7Record.userId = "u"
        ∧ (reSearch ("a.c").data c7Record.originalPrompt.data = true
           ∨ reSearch ("a.c").data c7Record.rewrittenPrompt.data = true) :=
  c7_amended [c7Record] "u" "a.c" c7Record

/-- C8: deleting a stored record by id scoped to an owner different from
the record owner yields 404 and leaves the store unchanged, the record
still present (ids are assumed unique per store, as Mongo object ids
are). -/
theorem c8_theorem (store : List PromptRecord) (X : PromptRecord) (owner : String)
    (hmem : X ∈ store)
    (huniq : ∀ r ∈ store, r.id = X.id → r.userId = X.userId)
    (hneq : owner ≠ X.userId) :
    deleteHistoryItem store X.id (some owner) = (404, store)
    ∧ X ∈ (deleteHistoryItem store X.id (some owner)).2 := by
  have hno : ∀ r ∈ store, matchesDelete X.id (some owner) r = false := by
    intro r hr
    unfold matchesDelete
    by_cases hid : r.id = X.id
    · have hu : r.userId = X.userId := huniq r hr hid
      have hne : ¬ (X.userId = owner) := fun hx => hneq hx.symm
      simp [hid, hu, hne]
    · simp [hid]
  have hdel : deleteHistoryItem store X.id (some owner) = (404, store) := by
    unfold deleteHistoryItem
    rw [findOneAndDelete_eq_none _ _ _ hno]
  exact ⟨hdel, by rw [hdel]; exact hmem⟩

/-- C8 witness: deleting the sample record with the mismatched owner v
returns 404 and the record is still stored. -/
theorem c8_witness :
    deleteHistoryItem [c8Record] c8Record.id (some "v") = (404, [c8Record])
    ∧ c8Record ∈ (deleteHistoryItem [c8Record] c8Record.id (some "v")).2 :=
  c8_theorem [c8Record] c8Record "v" (by decide) (by decide) (by decide)

/-- C9: for every store, user, filter set, 1-indexed page and page size,
both list operations compute skip as (page-1)*limit, return the slice
dropped by skip and capped at limit, report the total matching count, and
satisfy hasNext equal to skip + returnedCount < totalCount. -/
theorem c9_theorem (store : List PromptRecord) (u : String) (page limit : Nat)
    (ty tn se : Option String) (hp : 1 ≤ page) :
    ((getHistory store u page limit ty tn se).pagination.hasNext
        = decide ((page - 1) * limit
            + (getHistory store u page limit ty tn se).prompts.length
            < (getHistory store u page limit ty tn se).pagination.totalItems))
    ∧ ((getFavorites store u page limit).pagination.hasNext
        = decide ((page - 1) * limit + (getFavorites store u page limit).prompts.length
            < (getFavorites store u page limit).pagination.totalItems))
    ∧ (getHistory store u page limit ty tn se).pagination.totalItems
        = (store.filter (matchesHistoryQuery (buildHistoryQuery u ty tn se))).length
    ∧ (getHistory store u page limit ty tn se).prompts
        = ((sortTimestampDesc
              (store.filter (matchesHistoryQuery (buildHistoryQuery u ty tn se)))).drop
            ((page - 1) * limit)).take limit
    ∧ (getFavorites store u page limit).pagination.totalItems
        = (store.filter (fun r => r.userId = u && r.isFavorite)).length :=
  ⟨rfl, rfl, rfl, rfl, rfl⟩

/-- C9 witness: the pagination invariant at a concrete store, page 2 and
limit 1. -/
theorem c9_witness :
    ((getHistory [c7Record, c8Record] "u" 2 1 none none none).pagination.hasNext
        = decide ((2 - 1) * 1
            + (getHistory [c7Record, c8Record] "u" 2 1 none none none).prompts.length
            < (getHistory [c7Record, c8Record] "u" 2 1 none none none).pagination.totalItems))
    ∧ ((getFavorites [c7Record, c8Record] "u" 2 1).pagination.hasNext
        = decide ((2 - 1) * 1 + (getFavorites [c7Record, c8Record] "u" 2 1).prompts.length
            < (getFavorites [c7Record, c8Record] "u" 2 1).pagination.totalItems))
    ∧ (getHistory [c7Record, c8Record] "u" 2 1 none none none).pagination.totalItems
        = (List.filter (matchesHistoryQuery (buildHistoryQuery "u" none none none))
            [c7Record, c8Record]).length
    ∧ (getHistory [c7Record, c8Record] "u" 2 1 none none none).prompts
        = ((sortTimestampDesc
              (List.filter (matchesHistoryQuery (buildHistoryQuery "u" none none none))
                [c7Record, c8Record])).drop ((2 - 1) * 1)).take 1
    ∧ (getFavorites [c7Record, c8Record] "u" 2 1).pagination.totalItems
        = (List.filter (fun r => r.userId = "u" && r.isFavorite)
            [c7Record, c8Record]).length :=
  c9_theorem [c7Record, c8Record] "u" 2 1 none none none (by decide)

/-- C10: the Text Transform Fallback is a total function whose output is
never empty, and on the empty prompt with the default professional tone
(no wrapper) and the non-email type other it returns exactly the single
period. -/
theorem c10_theorem (p tone ty : String) (t : Nat) :
    0 < (getMockResponse p tone ty t).rewrittenPrompt.length
    ∧ (getMockResponse "" "professional" "other" 0).rewrittenPrompt = "." := by
  constructor
  · show 0 < (applyTypeWrap ty (applyTone tone (baseTransform p))).length
    exact List.length_pos.mpr
      (applyTypeWrap_ne_nil _ _ (applyTone_ne_nil _ _ (punctStep_ne_nil _)))
  · decide

end PromptFixer
